import Mathlib

/-!
Shallow embedding of the guava-backend Firebase functions (Python) in Lean 4.

Conventions used throughout:
* A Python string is modelled as its list of Unicode code points (`PyStr :=
  List Nat`); string-typed JSON values, e-mail addresses and document data all
  use this representation.  Field names of dicts with a fixed schema, and
  server-generated ASCII text (document ids, response messages), are kept as
  Lean `String`s for readability.
* Python timestamps (`datetime.now()`) are opaque to every claim; they are
  modelled as `Nat`.
* A Firestore collection is a map `key → Option doc`; `doc_ref.set` is
  pointwise update, `doc_ref.get` is application, `doc_ref.delete` maps the
  key to `none`.
* Exceptions raised by Firestore calls inside a per-item `try/except` are
  modelled by an explicit oracle `failAt : Nat → Bool` (`errMsg` is the
  `str(exception)` text); in the source a raised call performs no write, so a
  failing item leaves the store unchanged.
-/

namespace Guava

/-- A Python string, as its list of Unicode code points. -/
abbrev PyStr := List Nat

/-- The code points of an ASCII Lean string literal, used to write concrete
Python-string values. -/
def strToNats (s : String) : PyStr := s.data.map Char.toNat

/-! ### CORS and origin allow-list (src/functions/utils.py,
src/functions/constants/constants.py)

`utils.py` imports `ALLOWED_ORIGINS` from the `constants` package
(`constants/constants.py`); that file's seven-entry list is the one the CORS
helpers consult.  (The flat module `constants.py` carries a six-entry variant
that `utils.py` does not read.) -/

/-- ALLOWED_ORIGINS of src/functions/constants/constants.py. -/
def ALLOWED_ORIGINS : List String :=
  ["http://localhost:3000",
   "https://localhost:3000",
   "https://guavaaa.com",
   "https://www.guavaaa.com",
   "https://kol.guavaaa.com",
   "http://192.168.1.181:3000",
   "https://192.168.1.181:3000"]

def CORS_ALLOW_METHODS : String := "GET, POST, OPTIONS"

def CORS_ALLOW_HEADERS : String := "Content-Type"

/-- The three CORS headers every handler attaches. -/
structure CORSHeaders where
  allowOrigin : String
  allowMethods : String
  allowHeaders : String
deriving Repr, DecidableEq

/-- Python truthiness of the optional `Origin` header value: present and
non-empty. -/
def originTruthy : Option String → Bool
  | none => false
  | some s => !(s == "")

/-- utils.get_cors_headers: echo the origin only when it is truthy and on the
allow-list; otherwise all three headers are empty strings. -/
def get_cors_headers (requestOrigin : Option String) : CORSHeaders :=
  if originTruthy requestOrigin && ALLOWED_ORIGINS.contains (requestOrigin.getD "") then
    { allowOrigin := requestOrigin.getD ""
      allowMethods := CORS_ALLOW_METHODS
      allowHeaders := CORS_ALLOW_HEADERS }
  else
    { allowOrigin := "", allowMethods := "", allowHeaders := "" }

/-- utils.is_origin_allowed: `request_origin is None or request_origin in
ALLOWED_ORIGINS`. -/
def is_origin_allowed : Option String → Bool
  | none => true
  | some s => ALLOWED_ORIGINS.contains s

/-! ### E-mail normalization (src/functions/utils.py) -/

/-- The ASCII whitespace code points Python's `str.strip()` removes (space,
tab, newline, vertical tab, form feed, carriage return).  `strip()` also
removes some non-ASCII Unicode whitespace, which e-mail addresses do not
contain; the model restricts to the ASCII set. -/
def isPySpace (n : Nat) : Bool :=
  n == 32 || n == 9 || n == 10 || n == 11 || n == 12 || n == 13

/-- Python `str.lower()` on one code point, restricted to ASCII: an upper-case
letter gains 32, everything else is unchanged. -/
def pyLower (n : Nat) : Nat :=
  if 65 ≤ n ∧ n ≤ 90 then n + 32 else n

/-- Python `str.strip()`: drop whitespace from the front, then from the back. -/
def pyStrip (l : PyStr) : PyStr :=
  (((l.dropWhile isPySpace).reverse.dropWhile isPySpace)).reverse

/-- utils.normalize_email: `email.lower().strip()`. -/
def normalize_email (email : PyStr) : PyStr :=
  pyStrip (email.map pyLower)

/-! Normalization is idempotent: the facts needed for claim C2. -/

theorem pyLower_idem (n : Nat) : pyLower (pyLower n) = pyLower n := by
  by_cases h : 65 ≤ n ∧ n ≤ 90
  · simp only [pyLower, if_pos h, if_neg (show ¬(65 ≤ n + 32 ∧ n + 32 ≤ 90) by omega)]
  · simp only [pyLower, if_neg h]

theorem dropWhile_self_of_head {p : Nat → Bool} {l : PyStr}
    (h : ∀ a t, l = a :: t → p a = false) : l.dropWhile p = l := by
  cases l with
  | nil => rfl
  | cons a t => simp [List.dropWhile, h a t rfl]

theorem dropWhile_idem (p : Nat → Bool) (l : PyStr) :
    (l.dropWhile p).dropWhile p = l.dropWhile p := by
  apply dropWhile_self_of_head
  intro a t h
  have := List.head?_dropWhile_not p l
  rw [h] at this
  simpa using this

/-- Dropping trailing whitespace, the second half of `pyStrip`. -/
def stripBack (l : PyStr) : PyStr :=
  (l.reverse.dropWhile isPySpace).reverse

theorem pyStrip_eq (l : PyStr) :
    pyStrip l = stripBack (l.dropWhile isPySpace) := rfl

theorem stripBack_idem (l : PyStr) : stripBack (stripBack l) = stripBack l := by
  unfold stripBack
  rw [List.reverse_reverse, dropWhile_idem]

theorem stripBack_of_head {a : Nat} {t : PyStr} (h : isPySpace a = false) :
    ∃ t', stripBack (a :: t) = a :: t' := by
  unfold stripBack
  rw [List.reverse_cons, List.dropWhile_append]
  by_cases he : (t.reverse.dropWhile isPySpace).isEmpty
  · refine ⟨[], ?_⟩
    simp [he, List.dropWhile, h]
  · refine ⟨(t.reverse.dropWhile isPySpace).reverse, ?_⟩
    simp [he]

theorem pyStrip_idem (l : PyStr) : pyStrip (pyStrip l) = pyStrip l := by
  rw [pyStrip_eq, pyStrip_eq]
  have hfix : (stripBack (l.dropWhile isPySpace)).dropWhile isPySpace
      = stripBack (l.dropWhile isPySpace) := by
    rcases heq : l.dropWhile isPySpace with _ | ⟨a, t⟩
    · rfl
    · have ha : isPySpace a = false := by
        have := List.head?_dropWhile_not isPySpace l
        rw [heq] at this
        simpa using this
      obtain ⟨t', ht'⟩ := stripBack_of_head (t := t) ha
      rw [ht']
      exact dropWhile_self_of_head (fun b u hbu => by cases hbu; exact ha)
  rw [hfix, stripBack_idem]

theorem mem_of_mem_pyStrip {x : Nat} {l : PyStr} (h : x ∈ pyStrip l) : x ∈ l := by
  unfold pyStrip at h
  rw [List.mem_reverse] at h
  have h1 := (List.dropWhile_sublist (l := (l.dropWhile isPySpace).reverse)
    (p := isPySpace)).mem h
  rw [List.mem_reverse] at h1
  exact (List.dropWhile_sublist (l := l) (p := isPySpace)).mem h1

theorem normalize_email_idem (l : PyStr) :
    normalize_email (normalize_email l) = normalize_email l := by
  unfold normalize_email
  have hmap : (pyStrip (l.map pyLower)).map pyLower = pyStrip (l.map pyLower) := by
    have : ∀ x ∈ pyStrip (l.map pyLower), pyLower x = x := by
      intro x hx
      have hx' := mem_of_mem_pyStrip hx
      obtain ⟨y, _, hy⟩ := List.mem_map.mp hx'
      rw [← hy, pyLower_idem]
    calc (pyStrip (l.map pyLower)).map pyLower
        = (pyStrip (l.map pyLower)).map id := List.map_congr_left this
      _ = pyStrip (l.map pyLower) := List.map_id _
  rw [hmap, pyStrip_idem]

/-! ### email_to_short_id (src/functions/utils.py)

`email_to_short_id` normalizes the e-mail, hashes the UTF-8 bytes of the
result with SHA-256, base64url-encodes the digest and keeps the first 11
characters.  SHA-256 (FIPS 180-4) and base64 (RFC 4648, `-_` alphabet, the
behaviour of `base64.urlsafe_b64encode`) are spelled out below over `Nat`
bytes and 32-bit words (`% 2^32`). -/

/-- Truncation to a 32-bit word. -/
def w32 (n : Nat) : Nat := n % 4294967296

/-- 32-bit right rotation (the argument is a 32-bit word). -/
def rotr (r x : Nat) : Nat := w32 ((x >>> r) ||| (x <<< (32 - r)))

def shaCh (e f g : Nat) : Nat := w32 ((e &&& f) ^^^ ((2 ^ 32 - 1 - e) &&& g))

def shaMaj (a b c : Nat) : Nat := (a &&& b) ^^^ (a &&& c) ^^^ (b &&& c)

def bsig0 (x : Nat) : Nat := rotr 2 x ^^^ rotr 13 x ^^^ rotr 22 x

def bsig1 (x : Nat) : Nat := rotr 6 x ^^^ rotr 11 x ^^^ rotr 25 x

def ssig0 (x : Nat) : Nat := rotr 7 x ^^^ rotr 18 x ^^^ (x >>> 3)

def ssig1 (x : Nat) : Nat := rotr 17 x ^^^ rotr 19 x ^^^ (x >>> 10)

/-- The 64 SHA-256 round constants (FIPS 180-4, written in decimal). -/
def shaK : List Nat :=
  [1116352408, 1899447441, 3049323471, 3921009573, 961987163, 1508970993,
   2453635748, 2870763221, 3624381080, 310598401, 607225278, 1426881987,
   1925078388, 2162078206, 2614888103, 3248222580, 3835390401, 4022224774,
   264347078, 604807628, 770255983, 1249150122, 1555081692, 1996064986,
   2554220882, 2821834349, 2952996808, 3210313671, 3336571891, 3584528711,
   113926993, 338241895, 666307205, 773529912, 1294757372, 1396182291,
   1695183700, 1986661051, 2177026350, 2456956037, 2730485921, 2820302411,
   3259730800, 3345764771, 3516065817, 3600352804, 4094571909, 275423344,
   430227734, 506948616, 659060556, 883997877, 958139571, 1322822218,
   1537002063, 1747873779, 1955562222, 2024104815, 2227730452, 2361852424,
   2428436474, 2756734187, 3204031479, 3329325298]

/-- The initial SHA-256 hash values (FIPS 180-4, written in decimal). -/
def shaH0 : List Nat :=
  [1779033703, 3144134277, 1013904242, 2773480762,
   1359893119, 2600822924, 528734635, 1541459225]

/-- A 32-bit word as 4 big-endian bytes. -/
def wordToBytesBE (w : Nat) : List Nat :=
  [(w >>> 24) % 256, (w >>> 16) % 256, (w >>> 8) % 256, w % 256]

/-- Big-endian bytes to 32-bit words (the byte list's length is a multiple
of 4). -/
def bytesToWordsBE : List Nat → List Nat
  | b0 :: b1 :: b2 :: b3 :: rest =>
      (((b0 <<< 8 ||| b1) <<< 8 ||| b2) <<< 8 ||| b3) :: bytesToWordsBE rest
  | _ => []

/-- SHA-256 padding: append 0x80, zero bytes to 56 mod 64, then the bit
length as 8 big-endian bytes. -/
def sha256Pad (msg : List Nat) : List Nat :=
  let bitLen := msg.length * 8
  let zeros := (64 + 56 - (msg.length + 1) % 64) % 64
  msg ++ [0x80] ++ List.replicate zeros 0 ++
    [(bitLen >>> 56) % 256, (bitLen >>> 48) % 256, (bitLen >>> 40) % 256,
     (bitLen >>> 32) % 256, (bitLen >>> 24) % 256, (bitLen >>> 16) % 256,
     (bitLen >>> 8) % 256, bitLen % 256]

/-- One message-schedule extension step: append W[i] for i = current length. -/
def scheduleStep (ws : List Nat) : List Nat :=
  let i := ws.length
  let g (j : Nat) : Nat := ws.getD (i - j) 0
  ws ++ [w32 (ssig1 (g 2) + g 7 + ssig0 (g 15) + g 16)]

/-- Iterate the schedule extension `n` times. -/
def buildSchedule (ws : List Nat) : Nat → List Nat
  | 0 => ws
  | n + 1 => buildSchedule (scheduleStep ws) n

/-- One SHA-256 compression round on the eight working variables. -/
def shaRound (w k : Nat) : List Nat → List Nat
  | [a, b, c, d, e, f, g, h] =>
      let t1 := w32 (h + bsig1 e + shaCh e f g + k + w)
      let t2 := w32 (bsig0 a + shaMaj a b c)
      [w32 (t1 + t2), a, b, c, w32 (d + t1), e, f, g]
  | s => s

/-- Compress one 64-byte block into the running hash. -/
def processBlock (hs : List Nat) (block : List Nat) : List Nat :=
  let ws := buildSchedule (bytesToWordsBE block) 48
  let fin := (List.range 64).foldl (fun st t => shaRound (ws.getD t 0) (shaK.getD t 0) st) hs
  List.zipWith (fun x y => w32 (x + y)) hs fin

/-- Split a byte list into 64-byte chunks. -/
def chunks64 (l : List Nat) : List (List Nat) :=
  if h : l = [] then []
  else
    have : (l.drop 64).length < l.length := by
      have hl : 0 < l.length := List.length_pos.mpr h
      simp only [List.length_drop]
      omega
    l.take 64 :: chunks64 (l.drop 64)
termination_by l.length

/-- SHA-256 of a byte list, as its 32 digest bytes. -/
def sha256 (msg : List Nat) : List Nat :=
  (((chunks64 (sha256Pad msg)).foldl processBlock shaH0).map wordToBytesBE).flatten

/-- The URL-safe base64 alphabet (RFC 4648 with `-` and `_`). -/
def b64urlAlphabet : List Char :=
  "ABCDEFGHIJKLMNOPQRSTUVWXYZabcdefghijklmnopqrstuvwxyz0123456789-_".data

def b64Char (n : Nat) : Char := b64urlAlphabet.getD n 'A'

/-- base64url encoding with `=` padding, the behaviour of
`base64.urlsafe_b64encode`. -/
def b64urlEncode : List Nat → List Char
  | [] => []
  | [b0] =>
      [b64Char (b0 >>> 2), b64Char ((b0 % 4) <<< 4), '=', '=']
  | [b0, b1] =>
      [b64Char (b0 >>> 2), b64Char (((b0 % 4) <<< 4) ||| (b1 >>> 4)),
       b64Char ((b1 % 16) <<< 2), '=']
  | b0 :: b1 :: b2 :: rest =>
      b64Char (b0 >>> 2) :: b64Char (((b0 % 4) <<< 4) ||| (b1 >>> 4)) ::
      b64Char (((b1 % 16) <<< 2) ||| (b2 >>> 6)) :: b64Char (b2 % 64) ::
      b64urlEncode rest

/-- UTF-8 encoding of one code point. -/
def utf8EncodeChar (n : Nat) : List Nat :=
  if n < 0x80 then [n]
  else if n < 0x800 then
    [0xC0 ||| (n >>> 6), 0x80 ||| (n &&& 0x3F)]
  else if n < 0x10000 then
    [0xE0 ||| (n >>> 12), 0x80 ||| ((n >>> 6) &&& 0x3F), 0x80 ||| (n &&& 0x3F)]
  else
    [0xF0 ||| (n >>> 18), 0x80 ||| ((n >>> 12) &&& 0x3F),
     0x80 ||| ((n >>> 6) &&& 0x3F), 0x80 ||| (n &&& 0x3F)]

/-- UTF-8 encoding of a Python string (`str.encode('utf-8')`). -/
def utf8Encode (l : PyStr) : List Nat := (l.map utf8EncodeChar).flatten

/-- utils.email_to_short_id: normalize, SHA-256 the UTF-8 bytes, base64url
encode, keep the first 11 characters.  The result is ASCII, kept as a Lean
`String`. -/
def email_to_short_id (email : PyStr) : String :=
  ⟨(b64urlEncode (sha256 (utf8Encode (normalize_email email)))).take 11⟩

/-! ### HTTP constants (src/functions/constants/constants.py) -/

def HTTP_OK : Nat := 200
def HTTP_NO_CONTENT : Nat := 204
def HTTP_MULTI_STATUS : Nat := 207
def HTTP_BAD_REQUEST : Nat := 400
def HTTP_METHOD_NOT_ALLOWED : Nat := 405

/-! ### Request gates

Each handler starts with the same sequence: compute CORS headers, answer
OPTIONS preflights, reject disallowed origins, reject wrong methods.  The
body of the rejection responses is an error string; `none` means the gate
passed and the handler's business logic runs. -/

/-- An early-return response from a request gate. -/
structure GateResponse where
  status : Nat
  headers : CORSHeaders
  error : Option String
deriving Repr, DecidableEq

/-- merchant.handle_common_request_validation; the same inline sequence opens
main.store_contact, main.get_contacts and the landing-site lead handlers
(OPTIONS → 204, origin check → 403, method check → 405, in that order). -/
def handle_common_request_validation (origin : Option String) (method : String)
    (allowedMethod : String) : Option GateResponse :=
  let headers := get_cors_headers origin
  if method == "OPTIONS" then
    some { status := HTTP_NO_CONTENT, headers := headers, error := none }
  else if !is_origin_allowed origin then
    some { status := 403, headers := headers, error := some "Origin not allowed" }
  else if method != allowedMethod then
    some { status := HTTP_METHOD_NOT_ALLOWED, headers := headers,
           error := some ("Only " ++ allowedMethod ++ " method is allowed") }
  else
    none

/-- The gate of openai.generate_social_media_post (and its Chinese variant):
OPTIONS → 200, wrong method → 405, then a disallowed origin → HTTP_BAD_REQUEST
(400, error code UNAUTHORIZED_ORIGIN) — not 403. -/
def generateSocialMediaPostGate (origin : Option String) (method : String) :
    Option GateResponse :=
  let headers := get_cors_headers origin
  if method == "OPTIONS" then
    some { status := 200, headers := headers, error := none }
  else if method != "POST" then
    some { status := HTTP_METHOD_NOT_ALLOWED, headers := headers,
           error := some ("Method " ++ method ++ " not allowed. Use POST.") }
  else if !is_origin_allowed origin then
    some { status := HTTP_BAD_REQUEST, headers := headers,
           error := some "Unauthorized origin" }
  else
    none

/-! ### Items and required-field validation

A submitted contact/merchant item is a JSON object whose values are strings:
an association list from field name to `PyStr` value (Python dicts have
unique keys; lookup is by first match). -/

/-- A submitted JSON object with string values. -/
abbrev Item := List (String × PyStr)

/-- `field not in item or not item[field]` — absent or falsy (the empty
string). -/
def isMissingField (it : Item) (field : String) : Bool :=
  match it.lookup field with
  | none => true
  | some v => v.isEmpty

/-- The required fields an item lacks, in required-field order. -/
def missingFields (required : List String) (it : Item) : List String :=
  required.filter (isMissingField it)

/-- COLLECTION_REQUIRED_FIELDS for contacts and landing-site leads. -/
def contactRequiredFields : List String := ["name", "email", "message"]

/-- COLLECTION_REQUIRED_FIELDS for merchants and pending merchants. -/
def merchantRequiredFields : List String :=
  ["name", "email", "address", "description", "industry"]

/-- The pre-write validation pass: one error string per failing item,
`"<label> <i+1>: Missing required fields: f1, f2"`, 1-indexed.  `label` is
`"Contact"` in main.py / the lead route and `"Merchant"` in merchant.py. -/
def validationErrors (label : String) (required : List String)
    (items : List Item) : List String :=
  items.enum.filterMap fun p =>
    let m := missingFields required p.2
    if m.isEmpty then none
    else some (label ++ " " ++ toString (p.1 + 1) ++ ": Missing required fields: "
      ++ String.intercalate ", " m)

/-! ### Contact / lead documents and the upsert-with-append write path
(src/functions/main.py store_contact,
src/functions/routes/landing_site_contact_form_lead.py
store_landing_site_contact_form_lead) -/

/-- The shape of a stored `message` field: the code always writes a list of
strings, but a pre-existing (legacy) document may hold a single string or a
value of any other shape. -/
inductive MsgVal where
  | str (s : PyStr)
  | list (l : List PyStr)
  | other
deriving Repr, DecidableEq

/-- The legacy-shape coercion of main.py lines 157–168 (identical in the lead
route): a single string becomes a one-element list, a list stays, an absent
(`none`) or unrecognized value becomes the empty list. -/
def coerceMsg : Option MsgVal → List PyStr
  | none => []
  | some (.str s) => [s]
  | some (.list l) => l
  | some .other => []

/-- A stored contact/lead document (ContactData / LandingSiteContactFormLead):
all submitted fields plus the accumulated message value and the timestamp. -/
structure ContactDoc where
  name : PyStr
  email : PyStr
  phone : PyStr
  company : PyStr
  industry : PyStr
  message : Option MsgVal
  dtime : Nat
deriving Repr, DecidableEq

/-- The updated message list: prior messages coerced to a list, the new
message appended at the end. -/
def updatedMessages (prior : Option ContactDoc) (newMsg : PyStr) : List PyStr :=
  (match prior with
   | none => []
   | some d => coerceMsg d.message) ++ [newMsg]

/-- The contacts collection of main.py, keyed by the raw e-mail string. -/
abbrev ContactStore := PyStr → Option ContactDoc

/-- The landing-site lead collection, keyed by the 11-character short id. -/
abbrev LeadStore := String → Option ContactDoc

def emptyContactStore : ContactStore := fun _ => none

def emptyLeadStore : LeadStore := fun _ => none

/-- Per-item success record (StoredContactResult / StoredLeadResult).  For
main.store_contact the document id is the raw e-mail; for the lead route it
is the short id, so the field is a sum-free `String` rendering there and the
raw `PyStr` here — two step functions below mirror the two handlers. -/
structure StoredContactResult where
  email : PyStr
  document_id : PyStr
  status : String
  action : String
  total_messages : Nat
deriving Repr, DecidableEq

structure StoredLeadResult where
  email : PyStr
  document_id : String
  status : String
  action : String
  total_messages : Nat
deriving Repr, DecidableEq

/-- Per-item error record (ContactError / LeadError): 1-indexed position,
`contact.get('email', 'unknown')`, and the exception text. -/
structure ContactError where
  contact_index : Nat
  email : PyStr
  error : String
deriving Repr, DecidableEq

def unknownEmail : PyStr := strToNats "unknown"

def emailOrUnknown (it : Item) : PyStr := (it.lookup "email").getD unknownEmail

/-- The body of main.store_contact's per-item `try`: read the required fields
(`contact['email']`, `contact['name']`, `contact['message']` — a missing key
raises and yields `none`), fetch the prior document at the raw-e-mail key,
append to the message history, overwrite every other field, and classify the
write as created/updated. -/
def contactItemStep (store : ContactStore) (it : Item) (now : Nat) :
    Option (ContactStore × StoredContactResult) :=
  match it.lookup "email", it.lookup "name", it.lookup "message" with
  | some em, some nm, some msg =>
    let prior := store em
    let upd := updatedMessages prior msg
    let doc : ContactDoc :=
      { name := nm, email := em
        phone := (it.lookup "phone").getD []
        company := (it.lookup "company").getD []
        industry := (it.lookup "industry").getD []
        message := some (.list upd)
        dtime := now }
    some (fun k => if k = em then some doc else store k,
      { email := em, document_id := em, status := "success"
        action := if prior.isSome then "updated" else "created"
        total_messages := upd.length })
  | _, _, _ => none

/-- The same per-item body in the lead route, with the document key derived
as `email_to_short_id(contact['email'])`. -/
def leadItemStep (store : LeadStore) (it : Item) (now : Nat) :
    Option (LeadStore × StoredLeadResult) :=
  match it.lookup "email", it.lookup "name", it.lookup "message" with
  | some em, some nm, some msg =>
    let docId := email_to_short_id em
    let prior := store docId
    let upd := updatedMessages prior msg
    let doc : ContactDoc :=
      { name := nm, email := em
        phone := (it.lookup "phone").getD []
        company := (it.lookup "company").getD []
        industry := (it.lookup "industry").getD []
        message := some (.list upd)
        dtime := now }
    some (fun k => if k = docId then some doc else store k,
      { email := em, document_id := docId, status := "success"
        action := if prior.isSome then "updated" else "created"
        total_messages := upd.length })
  | _, _, _ => none

/-- The per-item loop of main.store_contact (lines 146–205).  `i` is the
0-based loop index; `failAt i = true` models a Firestore call raising while
item `i` is processed (then no write happens), `errMsg i` the exception text.
A missing required key raises a `KeyError`, also caught per item.  Each item
contributes a success record or a `ContactError` with `contact_index = i+1`. -/
def contactLoop (failAt : Nat → Bool) (errMsg : Nat → String) (now : Nat) :
    ContactStore → List Item → Nat →
    ContactStore × List StoredContactResult × List ContactError
  | store, [], _ => (store, [], [])
  | store, it :: rest, i =>
    if failAt i then
      let r := contactLoop failAt errMsg now store rest (i + 1)
      (r.1, r.2.1, ⟨i + 1, emailOrUnknown it, errMsg i⟩ :: r.2.2)
    else
      match contactItemStep store it now with
      | some (store', res) =>
        let r := contactLoop failAt errMsg now store' rest (i + 1)
        (r.1, res :: r.2.1, r.2.2)
      | none =>
        let r := contactLoop failAt errMsg now store rest (i + 1)
        (r.1, r.2.1, ⟨i + 1, emailOrUnknown it, "KeyError"⟩ :: r.2.2)

/-- The aggregate envelope of main.store_contact (lines 207–219). -/
structure StoreContactResponse where
  success : Bool
  total_contacts : Nat
  stored_successfully : Nat
  stored_contacts : List StoredContactResult
  message : String
  errors : Option (List ContactError)
deriving Repr, DecidableEq

def aggregateContacts (total : Nat) (oks : List StoredContactResult)
    (errs : List ContactError) : StoreContactResponse :=
  { success := errs.isEmpty
    total_contacts := total
    stored_successfully := oks.length
    stored_contacts := oks
    message :=
      if errs.isEmpty then
        "All " ++ toString oks.length ++ " contact(s) stored successfully"
      else
        "Partially successful: " ++ toString oks.length ++ " of " ++
          toString total ++ " contacts stored"
    errors := if errs.isEmpty then none else some errs }

/-- The outcome of a store handler once the item list is resolved: either the
all-or-nothing validation rejection (main.py: status 400, body
`{'error': [strings]}`), or the processed batch with its status code. -/
inductive StoreOutcome (R : Type) where
  | validationFailed (status : Nat) (errs : List String)
  | processed (status : Nat) (resp : R)
deriving Repr, DecidableEq

def StoreOutcome.status : StoreOutcome R → Nat
  | .validationFailed s _ => s
  | .processed s _ => s

/-- main.store_contact, lines 126–228: validate every contact before
processing any (failure → 400, nothing written), else run the loop and
answer 200, or 207 when some item failed. -/
def storeContactPipeline (failAt : Nat → Bool) (errMsg : Nat → String)
    (store : ContactStore) (now : Nat) (items : List Item) :
    StoreOutcome StoreContactResponse × ContactStore :=
  let ve := validationErrors "Contact" contactRequiredFields items
  if ve.isEmpty then
    let r := contactLoop failAt errMsg now store items 0
    (.processed (if r.2.2.isEmpty then HTTP_OK else HTTP_MULTI_STATUS)
      (aggregateContacts items.length r.2.1 r.2.2), r.1)
  else
    (.validationFailed HTTP_BAD_REQUEST ve, store)

/-! ### Merchant storage (src/functions/routes/merchant.py) -/

/-- A stored merchant document (the Merchant TypedDict): five required string
fields, the optional phone (`merchant.get('phone')`, `None` when absent) and
the timestamp.  Merchant stores have no message accumulation: each write
fully replaces the document. -/
structure MerchantDoc where
  name : PyStr
  email : PyStr
  address : PyStr
  description : PyStr
  industry : PyStr
  phone : Option PyStr
  dtime : Nat
deriving Repr, DecidableEq

/-- A merchant collection (merchants / pending-merchants), keyed by short id. -/
abbrev MerchStore := String → Option MerchantDoc

def emptyMerchStore : MerchStore := fun _ => none

structure StoredMerchantResult where
  email : PyStr
  document_id : String
  status : String
  action : String
deriving Repr, DecidableEq

/-- Per-item error record (MerchantError). -/
structure MerchantError where
  merchant_index : Nat
  email : PyStr
  error : String
deriving Repr, DecidableEq

structure StoreMerchantsResponse where
  success : Bool
  total_merchants : Nat
  stored_successfully : Nat
  stored_merchants : List StoredMerchantResult
  message : String
  errors : Option (List MerchantError)
deriving Repr, DecidableEq

/-- The body of process_merchants_for_storage's per-item `try` (lines
114–143): the document id is `email_to_short_id(normalize_email(email))`, the
prior document is fetched only to classify created/updated, and the write
fully replaces the document. -/
def merchantItemStep (store : MerchStore) (it : Item) (now : Nat) :
    Option (MerchStore × StoredMerchantResult) :=
  match it.lookup "email", it.lookup "name", it.lookup "address",
      it.lookup "description", it.lookup "industry" with
  | some em, some nm, some ad, some de, some ind =>
    let docId := email_to_short_id (normalize_email em)
    let prior := store docId
    let doc : MerchantDoc :=
      { name := nm, email := em, address := ad, description := de
        industry := ind, phone := it.lookup "phone", dtime := now }
    some (fun k => if k = docId then some doc else store k,
      { email := em, document_id := docId, status := "success"
        action := if prior.isSome then "updated" else "created" })
  | _, _, _, _, _ => none

/-- The per-item loop of process_merchants_for_storage (lines 113–151).  The
error record carries `merchant_index = i`, the 0-based loop index (line 147),
unlike the contact loop's `i + 1`. -/
def merchantLoop (failAt : Nat → Bool) (errMsg : Nat → String) (now : Nat) :
    MerchStore → List Item → Nat →
    MerchStore × List StoredMerchantResult × List MerchantError
  | store, [], _ => (store, [], [])
  | store, it :: rest, i =>
    if failAt i then
      let r := merchantLoop failAt errMsg now store rest (i + 1)
      (r.1, r.2.1, ⟨i, emailOrUnknown it, errMsg i⟩ :: r.2.2)
    else
      match merchantItemStep store it now with
      | some (store', res) =>
        let r := merchantLoop failAt errMsg now store' rest (i + 1)
        (r.1, res :: r.2.1, r.2.2)
      | none =>
        let r := merchantLoop failAt errMsg now store rest (i + 1)
        (r.1, r.2.1, ⟨i, emailOrUnknown it, "KeyError"⟩ :: r.2.2)

/-- merchant.process_merchants_for_storage (lines 75–163): validate all
merchants first; on failure return the envelope with `success := false`, one
`MerchantError` per validation string (`merchant_index` re-enumerates the
error list, 1-indexed, `email` empty) and no write; else run the loop. -/
def process_merchants_for_storage (failAt : Nat → Bool) (errMsg : Nat → String)
    (store : MerchStore) (now : Nat) (items : List Item) :
    StoreMerchantsResponse × MerchStore :=
  let ve := validationErrors "Merchant" merchantRequiredFields items
  if ve.isEmpty then
    let r := merchantLoop failAt errMsg now store items 0
    ({ success := r.2.2.isEmpty
       total_merchants := items.length
       stored_successfully := r.2.1.length
       stored_merchants := r.2.1
       message := "Successfully stored " ++ toString r.2.1.length ++ " out of "
         ++ toString items.length ++ " merchants"
       errors := if r.2.2.isEmpty then none else some r.2.2 }, r.1)
  else
    ({ success := false
       total_merchants := items.length
       stored_successfully := 0
       stored_merchants := []
       message := "Validation failed for " ++ toString ve.length ++ " merchant(s)"
       errors := some (ve.enum.map fun p => ⟨p.1 + 1, [], p.2⟩) }, store)

/-- merchant.store_merchant (lines 328–342): delegate to
process_merchants_for_storage and map the envelope's `success` flag to the
status code — 200 when true, 207 otherwise, including for pure validation
rejection (there is no 400 branch past the body checks). -/
def storeMerchantPipeline (failAt : Nat → Bool) (errMsg : Nat → String)
    (store : MerchStore) (now : Nat) (items : List Item) :
    Nat × StoreMerchantsResponse × MerchStore :=
  let r := process_merchants_for_storage failAt errMsg store now items
  (if r.1.success then HTTP_OK else HTTP_MULTI_STATUS, r.1, r.2)

/-! ### Paginated merchant reads (merchant.get_merchants_from_collection,
merchant.get_merchants)

A collection snapshot is a list of `(document id, document)` pairs (ids
unique).  The Firestore query `order_by('datetime', DESCENDING)` sorts by
timestamp, newest first, with the document id as tiebreaker;
`start_after(doc)` resumes strictly after the cursor document's position in
that order. -/

/-- Does document `a` come strictly after document `b` in the
newest-first order? -/
def docAfter (a b : String × MerchantDoc) : Bool :=
  a.2.dtime < b.2.dtime || (a.2.dtime == b.2.dtime && a.1 < b.1)

/-- Insert into a list already sorted newest-first. -/
def insertDoc (x : String × MerchantDoc) :
    List (String × MerchantDoc) → List (String × MerchantDoc)
  | [] => [x]
  | y :: ys => if docAfter x y then y :: insertDoc x ys else x :: y :: ys

/-- The collection ordered newest-first (insertion sort). -/
def sortDocsDesc (l : List (String × MerchantDoc)) : List (String × MerchantDoc) :=
  l.foldr insertDoc []

/-- The ordered stream of merchant.get_merchants_from_collection lines
212–233: sort, resume after the cursor document when it exists (an unknown
cursor is ignored), apply a positive limit. -/
def queryStream (coll : List (String × MerchantDoc)) (cursor : Option String)
    (limit : Option Int) : List (String × MerchantDoc) :=
  let sorted := sortDocsDesc coll
  let started :=
    match cursor with
    | none => sorted
    | some cur =>
      match coll.lookup cur with
      | some cdoc => sorted.filter (fun p => docAfter p (cur, cdoc))
      | none => sorted
  match limit with
  | some l => if 0 < l then started.take l.toNat else started
  | none => started

/-- A serialized merchant record: the document with its id injected.  (The
source also renders the timestamp with `isoformat()`; the model keeps the
opaque `Nat`.) -/
structure MerchantRespRec where
  id : String
  data : MerchantDoc
deriving Repr, DecidableEq

structure PaginationInfo where
  has_more : Bool
  next_cursor : Option String
  limit : Option Int
deriving Repr, DecidableEq

structure GetMerchantsResponse where
  success : Bool
  merchants : List MerchantRespRec
  count : Nat
  filtered : Bool
  pagination : Option PaginationInfo
deriving Repr, DecidableEq

/-- Python truthiness of an optional string parameter. -/
def strTruthy : Option String → Bool
  | none => false
  | some s => !(s == "")

/-- ASCII whitespace test on a character. -/
def charSpace (c : Char) : Bool := isPySpace c.toNat

/-- Python `str.strip()` on an ASCII Lean string. -/
def stripStr (s : String) : String :=
  ⟨((s.data.dropWhile charSpace).reverse.dropWhile charSpace).reverse⟩

/-- `[i.strip() for i in p.split(',') if i.strip()]`. -/
def parseIdentifiers (p : String) : List String :=
  ((p.splitOn ",").map stripStr).filter (fun s => !(s == ""))

/-- The serialized page of an unfiltered read. -/
def unfilteredPage (coll : List (String × MerchantDoc)) (limit : Option Int)
    (cursor : Option String) : List MerchantRespRec :=
  (queryStream coll (if strTruthy cursor then cursor else none) limit).map
    fun p => MerchantRespRec.mk p.1 p.2

/-- Lines 250–252: `if limit and len(merchants) == limit: has_more = True`. -/
def pageHasMore (limit : Option Int) (count : Nat) : Bool :=
  match limit with
  | some l => decide (l ≠ 0) && decide ((count : Int) = l)
  | none => false

/-- Lines 253–255: `next_cursor` is assigned only inside the `has_more`
branch, the id of the page's last record. -/
def pageNextCursor (hasMore : Bool) (ms : List MerchantRespRec) : Option String :=
  if hasMore then ms.getLast?.map (·.id) else none

/-- merchant.get_merchants_from_collection (lines 166–269).  With a truthy
`identifiers` parameter: point lookups in input order, silently skipping
missing ids, `filtered := true`, no pagination; an all-blank identifier list
fails.  Otherwise: the ordered stream with pagination metadata. -/
def get_merchants_from_collection (coll : List (String × MerchantDoc))
    (identifiersParam : Option String) (limit : Option Int)
    (cursor : Option String) : GetMerchantsResponse :=
  if strTruthy identifiersParam then
    let ids := parseIdentifiers (identifiersParam.getD "")
    if ids.isEmpty then
      { success := false, merchants := [], count := 0, filtered := true,
        pagination := none }
    else
      let ms := ids.filterMap fun i =>
        (coll.lookup i).map fun d => MerchantRespRec.mk i d
      { success := true, merchants := ms, count := ms.length, filtered := true,
        pagination := none }
  else
    let ms := unfilteredPage coll limit cursor
    let pinfo : PaginationInfo :=
      { has_more := pageHasMore limit ms.length
        next_cursor := pageNextCursor (pageHasMore limit ms.length) ms
        limit := limit }
    { success := true, merchants := ms, count := ms.length, filtered := false,
      pagination := some pinfo }

/-- merchant.get_merchants (lines 353–429), past the request gate and
parameter parsing.  `limitParam` is the integer value of a present `limit`
query parameter (`none` when absent or falsy; the ValueError answer for a
non-numeric string is outside the model): non-positive → 400; over 100 →
silently clamped to 100.  A failed identifiers lookup → 400. -/
def get_merchants_handler (coll : List (String × MerchantDoc))
    (identifiersParam : Option String) (limitParam : Option Int)
    (cursorParam : Option String) : Nat × Option GetMerchantsResponse :=
  match limitParam with
  | some l =>
    if l ≤ 0 then (HTTP_BAD_REQUEST, none)
    else
      let l' : Int := if l > 100 then 100 else l
      let resp := get_merchants_from_collection coll identifiersParam (some l') cursorParam
      if resp.success then (HTTP_OK, some resp) else (HTTP_BAD_REQUEST, none)
  | none =>
    let resp := get_merchants_from_collection coll identifiersParam none cursorParam
    if resp.success then (HTTP_OK, some resp) else (HTTP_BAD_REQUEST, none)

/-! ### Approval of pending merchants (merchant.approve_pending_merchant,
lines 654–702) -/

/-- The two merchant collections the approval operation moves documents
between. -/
structure TwoStores where
  pending : MerchStore
  merchants : MerchStore

structure ApprovedEntry where
  merchant_id : String
  message : String
deriving Repr, DecidableEq

structure FailedEntry where
  merchant_id : String
  error : String
deriving Repr, DecidableEq

/-- One key of the approval loop: a missing pending document records a
not-found failure; otherwise a single transaction copies the fetched data
unchanged to the merchants collection at the same key and deletes it from
pending — `txFail mid = true` models the transaction raising, in which case
neither collection changes (both effects commit together or neither does).
The fetched document is a full Merchant record, so the source's falsy-dict
`Invalid merchant data` branch (lines 669–674) is unreachable here. -/
def approveStep (txFail : String → Bool) (st : TwoStores) (mid : String) :
    TwoStores × (ApprovedEntry ⊕ FailedEntry) :=
  match st.pending mid with
  | none => (st, .inr ⟨mid, "Pending merchant with ID " ++ mid ++ " not found"⟩)
  | some d =>
    if txFail mid then
      (st, .inr ⟨mid, "transaction raised"⟩)
    else
      ({ pending := fun k => if k = mid then none else st.pending k
         merchants := fun k => if k = mid then some d else st.merchants k },
       .inl ⟨mid, "Merchant " ++ mid ++ " approved successfully"⟩)

/-- The approval loop over all submitted keys: every key is processed, each
contributing to exactly one of the approved / failed lists. -/
def approveAll (txFail : String → Bool) :
    TwoStores → List String → TwoStores × List ApprovedEntry × List FailedEntry
  | st, [] => (st, [], [])
  | st, mid :: rest =>
    match approveStep txFail st mid with
    | (st', .inl ok) =>
      let r := approveAll txFail st' rest
      (r.1, ok :: r.2.1, r.2.2)
    | (st', .inr f) =>
      let r := approveAll txFail st' rest
      (r.1, r.2.1, f :: r.2.2)

/-! ## The claims -/

/-- C2: the short document key derived from an e-mail equals the one derived
from its normalized (lower-cased, trimmed) form; the derivation is
deterministic; and any two e-mails equal up to case and surrounding
whitespace map to the same key. -/
theorem shortId_stable_under_normalization :
    (∀ e : PyStr, email_to_short_id e = email_to_short_id (normalize_email e)) ∧
    (∀ e : PyStr, email_to_short_id e = email_to_short_id e) ∧
    (∀ e₁ e₂ : PyStr, normalize_email e₁ = normalize_email e₂ →
      email_to_short_id e₁ = email_to_short_id e₂) := by
  refine ⟨?_, fun _ => rfl, ?_⟩
  · intro e
    unfold email_to_short_id
    rw [normalize_email_idem]
  · intro e₁ e₂ h
    unfold email_to_short_id
    rw [h]

/-- Witness for C2 at concrete inputs: `" A@B.com"` and `"a@b.com  "`
normalize identically, so they share a document key. -/
theorem shortId_stable_witness :
    email_to_short_id (strToNats " A@B.com") = email_to_short_id (strToNats "a@b.com  ") :=
  shortId_stable_under_normalization.2.2 _ _ (by decide)

/-- C10: a request without an `Origin` header is allowed
(`is_origin_allowed None` is true) and is never answered with 403 by a
request gate, while its CORS headers are all empty strings. -/
theorem no_origin_allowed_but_uncredited :
    is_origin_allowed none = true ∧
    get_cors_headers none = ⟨"", "", ""⟩ ∧
    (∀ m a r, handle_common_request_validation none m a = some r → r.status ≠ 403) ∧
    (∀ m r, generateSocialMediaPostGate none m = some r → r.status ≠ 403) := by
  refine ⟨rfl, rfl, ?_, ?_⟩
  · intro m a r h
    simp only [handle_common_request_validation, is_origin_allowed,
      Bool.not_true, Bool.false_eq_true, if_false] at h
    split at h
    · cases h; exact (by decide : HTTP_NO_CONTENT ≠ 403)
    · split at h
      · cases h; exact (by decide : HTTP_METHOD_NOT_ALLOWED ≠ 403)
      · cases h
  · intro m r h
    simp only [generateSocialMediaPostGate, is_origin_allowed,
      Bool.not_true, Bool.false_eq_true, if_false] at h
    split at h
    · cases h; exact (by decide : (200 : Nat) ≠ 403)
    · split at h
      · cases h; exact (by decide : HTTP_METHOD_NOT_ALLOWED ≠ 403)
      · cases h

/-- Witness for C10: a no-Origin GET against a POST-only gate gets the 405
answer, not 403. -/
theorem no_origin_witness :
    ({ status := HTTP_METHOD_NOT_ALLOWED, headers := ⟨"", "", ""⟩,
       error := some "Only POST method is allowed" } : GateResponse).status ≠ 403 :=
  no_origin_allowed_but_uncredited.2.2.1 "GET" "POST" _ (by decide)

/-- Counterexample to C8 as stated: the social-media-post handler rejects the
disallowed origin `https://evil.example` (on a POST, i.e. before its business
logic) with status 400, not 403. -/
theorem openai_origin_status_counterexample :
    generateSocialMediaPostGate (some "https://evil.example") "POST" =
      some { status := HTTP_BAD_REQUEST, headers := ⟨"", "", ""⟩,
             error := some "Unauthorized origin" } ∧
    HTTP_BAD_REQUEST ≠ 403 := by
  constructor
  · decide
  · decide

/-- C8 as amended: a disallowed origin never has its value echoed in
`Access-Control-Allow-Origin` (all CORS headers are empty), and the rejection
happens at the request gate, before any business logic — with status 403 in
the contact/lead/merchant handlers but status 400 (`UNAUTHORIZED_ORIGIN`) in
the two social-media-post handlers. -/
theorem disallowed_origin_rejected (o : String)
    (h : ALLOWED_ORIGINS.contains o = false) :
    get_cors_headers (some o) = ⟨"", "", ""⟩ ∧
    (∀ m a, m ≠ "OPTIONS" →
      handle_common_request_validation (some o) m a =
        some { status := 403, headers := ⟨"", "", ""⟩,
               error := some "Origin not allowed" }) ∧
    generateSocialMediaPostGate (some o) "POST" =
      some { status := HTTP_BAD_REQUEST, headers := ⟨"", "", ""⟩,
             error := some "Unauthorized origin" } := by
  have hcors : get_cors_headers (some o) = ⟨"", "", ""⟩ := by
    unfold get_cors_headers
    rw [if_neg]
    simp only [Option.getD_some, h, Bool.and_false, Bool.false_eq_true,
      not_false_eq_true]
  have hallow : is_origin_allowed (some o) = false := h
  refine ⟨hcors, ?_, ?_⟩
  · intro m a hm
    unfold handle_common_request_validation
    rw [if_neg (by simpa using hm), if_pos (by rw [hallow]; rfl), hcors]
  · unfold generateSocialMediaPostGate
    rw [if_neg (by decide), if_neg (by decide), if_pos (by rw [hallow]; rfl), hcors]

/-- Witness for C8's amended theorem at the origin `https://evil.example` and
a POST request. -/
theorem disallowed_origin_witness :
    get_cors_headers (some "https://evil.example") = ⟨"", "", ""⟩ ∧
    (∀ m a, m ≠ "OPTIONS" →
      handle_common_request_validation (some "https://evil.example") m a =
        some { status := 403, headers := ⟨"", "", ""⟩,
               error := some "Origin not allowed" }) ∧
    generateSocialMediaPostGate (some "https://evil.example") "POST" =
      some { status := HTTP_BAD_REQUEST, headers := ⟨"", "", ""⟩,
             error := some "Unauthorized origin" } :=
  disallowed_origin_rejected "https://evil.example" (by decide)

/-- An unfiltered read always succeeds and carries pagination metadata. -/
theorem get_unfiltered (coll : List (String × MerchantDoc)) (limit : Option Int)
    (cursor : Option String) :
    get_merchants_from_collection coll none limit cursor =
      { success := true
        merchants := unfilteredPage coll limit cursor
        count := (unfilteredPage coll limit cursor).length
        filtered := false
        pagination := some
          { has_more := pageHasMore limit (unfilteredPage coll limit cursor).length
            next_cursor := pageNextCursor
              (pageHasMore limit (unfilteredPage coll limit cursor).length)
              (unfilteredPage coll limit cursor)
            limit := limit } } := rfl

theorem queryStream_length_le (coll : List (String × MerchantDoc))
    (cursor : Option String) (l : Int) (hl : 0 < l) :
    (queryStream coll cursor (some l)).length ≤ l.toNat := by
  unfold queryStream
  simp only [if_pos hl]
  exact List.length_take_le _ _

/-- C7: a `limit` greater than 100 is silently clamped — the request
succeeds (status 200), at most 100 records come back, and the response's
`pagination.limit` reports 100, not the requested value. -/
theorem limit_over_100_clamped (coll : List (String × MerchantDoc))
    (cursor : Option String) (l : Int) (h : 100 < l) :
    ∃ resp, get_merchants_handler coll none (some l) cursor = (HTTP_OK, some resp) ∧
      resp.count ≤ 100 ∧ ∃ p, resp.pagination = some p ∧ p.limit = some 100 := by
  refine ⟨get_merchants_from_collection coll none (some 100) cursor, ?_, ?_, ?_⟩
  · simp only [get_merchants_handler]
    rw [if_neg (show ¬ l ≤ 0 by omega), if_pos (show l > 100 by omega)]
    rfl
  · rw [get_unfiltered]
    show (unfilteredPage coll (some 100) cursor).length ≤ 100
    unfold unfilteredPage
    rw [List.length_map]
    exact queryStream_length_le _ _ _ (by omega)
  · rw [get_unfiltered]
    exact ⟨_, rfl, rfl⟩

/-- A one-document merchant collection used for concrete witnesses. -/
def sampleMerchantDoc : MerchantDoc :=
  { name := strToNats "Alice", email := strToNats "m@x.com"
    address := strToNats "1 Way", description := strToNats "d"
    industry := strToNats "food", phone := none, dtime := 10 }

/-- Witness for C7: `limit=500` over a one-document collection answers 200
with at most 100 records and a reported limit of 100. -/
theorem limit_over_100_witness :
    ∃ resp, get_merchants_handler [("k1", sampleMerchantDoc)] none (some 500) none =
        (HTTP_OK, some resp) ∧
      resp.count ≤ 100 ∧ ∃ p, resp.pagination = some p ∧ p.limit = some 100 :=
  limit_over_100_clamped [("k1", sampleMerchantDoc)] none 500 (by decide)

/-- Counterexample to C6 as stated: with `limit=5` over a one-document
collection the page is non-empty and a limit was applied, yet `next_cursor`
is absent (the source assigns it only when the page is exactly full). -/
theorem short_page_no_cursor_counterexample :
    (get_merchants_from_collection [("k1", sampleMerchantDoc)] none (some 5)
        none).pagination =
      some { has_more := false, next_cursor := none, limit := some 5 } ∧
    (get_merchants_from_collection [("k1", sampleMerchantDoc)] none (some 5)
        none).count = 1 ∧
    (0 : Int) < 5 := by
  refine ⟨by decide, by decide, by decide⟩

/-- C6 as amended: on an unfiltered read, `pagination.has_more` is true iff a
positive limit was applied and the returned count equals it exactly; and
`pagination.next_cursor` is the id of the page's last record when `has_more`
is true, and absent otherwise — also on a non-empty short page. -/
theorem pagination_metadata (coll : List (String × MerchantDoc))
    (limit : Option Int) (cursor : Option String) :
    ∃ p, (get_merchants_from_collection coll none limit cursor).pagination = some p ∧
      (p.has_more = true ↔ ∃ l, limit = some l ∧ 0 < l ∧
        ((get_merchants_from_collection coll none limit cursor).count : Int) = l) ∧
      (p.has_more = true → p.next_cursor =
        (get_merchants_from_collection coll none limit cursor).merchants.getLast?.map
          (·.id)) ∧
      (p.has_more = false → p.next_cursor = none) := by
  rw [get_unfiltered]
  refine ⟨_, rfl, ?_, ?_, ?_⟩
  · show pageHasMore limit (unfilteredPage coll limit cursor).length = true ↔ _
    cases limit with
    | none =>
      simp only [pageHasMore]
      constructor
      · intro hc; cases hc
      · rintro ⟨l, hl, -⟩; cases hl
    | some l =>
      simp only [pageHasMore, Bool.and_eq_true, decide_eq_true_eq]
      constructor
      · rintro ⟨h0, hlen⟩
        exact ⟨l, rfl, by omega, hlen⟩
      · rintro ⟨l', hl', h0, hlen⟩
        cases hl'
        exact ⟨by omega, hlen⟩
  · intro hm
    show pageNextCursor _ _ = _
    unfold pageNextCursor
    rw [if_pos hm]
  · intro hm
    have hm' : pageHasMore limit (unfilteredPage coll limit cursor).length = false := hm
    show pageNextCursor _ _ = _
    unfold pageNextCursor
    rw [if_neg (by simp [hm'])]

/-! ### C1: the lead store's upsert-with-append behaviour -/

/-- The specification of one lead store step: the document key is derived
from the submitted e-mail; the write is classified `updated` exactly when a
prior document existed; no other key changes; the stored document carries
every submitted field (optional ones defaulting to the empty string), the
current timestamp, and a message list whose length the result reports —
`[new]` over no prior document or a prior absent/unrecognized message value,
`[old, new]` over a legacy single-string value, `old ++ [new]` over a prior
list (append at the end, duplicates allowed, order preserved). -/
def LeadUpsertSpec : Prop :=
  ∀ (store : LeadStore) (it : Item) (now : Nat) (em nm msg : PyStr),
    it.lookup "email" = some em → it.lookup "name" = some nm →
    it.lookup "message" = some msg →
    ∃ store' r, leadItemStep store it now = some (store', r) ∧
      r.document_id = email_to_short_id em ∧
      r.email = em ∧
      r.status = "success" ∧
      r.action = (if (store (email_to_short_id em)).isSome then "updated" else "created") ∧
      (∀ k, k ≠ email_to_short_id em → store' k = store k) ∧
      ∃ d ms, store' (email_to_short_id em) = some d ∧
        d.message = some (.list ms) ∧
        r.total_messages = ms.length ∧
        d.name = nm ∧ d.email = em ∧
        d.phone = (it.lookup "phone").getD [] ∧
        d.company = (it.lookup "company").getD [] ∧
        d.industry = (it.lookup "industry").getD [] ∧
        d.dtime = now ∧
        (store (email_to_short_id em) = none → ms = [msg]) ∧
        (∀ d0, store (email_to_short_id em) = some d0 →
          (∀ s, d0.message = some (.str s) → ms = [s] ++ [msg]) ∧
          (∀ ls, d0.message = some (.list ls) → ms = ls ++ [msg]) ∧
          (d0.message = none → ms = [msg]) ∧
          (d0.message = some .other → ms = [msg]))

theorem leadItemStep_meets_spec : LeadUpsertSpec := by
  intro store it now em nm msg h1 h2 h3
  unfold leadItemStep
  rw [h1, h2, h3]
  refine ⟨_, _, rfl, rfl, rfl, rfl, rfl, ?_, ?_⟩
  · intro k hk
    exact if_neg hk
  · refine ⟨_, _, if_pos rfl, rfl, rfl, rfl, rfl, rfl, rfl, rfl, rfl, ?_, ?_⟩
    · intro h0
      simp [updatedMessages, h0]
    · intro d0 hd0
      refine ⟨?_, ?_, ?_, ?_⟩
      · intro s hs
        simp [updatedMessages, hd0, hs, coerceMsg]
      · intro ls hls
        simp [updatedMessages, hd0, hls, coerceMsg]
      · intro hn
        simp [updatedMessages, hd0, hn, coerceMsg]
      · intro ho
        simp [updatedMessages, hd0, ho, coerceMsg]

/-- C1: storing two leads with the same e-mail and messages `m1` then `m2`
yields one document whose message list is exactly `[m1, m2]`, the first store
classified `created` and the second `updated`; in general a prior
single-string message is coerced to a one-element list, an absent or
unrecognized prior shape counts as the empty list, the new message is
appended at the end, and every other field is replaced by the latest
submission (`LeadUpsertSpec`). -/
theorem lead_store_accumulates_messages :
    LeadUpsertSpec ∧
    ∀ (em nm m1 m2 : PyStr) (t1 t2 : Nat),
      ∃ s1 r1 s2 r2,
        leadItemStep emptyLeadStore
          [("name", nm), ("email", em), ("message", m1)] t1 = some (s1, r1) ∧
        leadItemStep s1
          [("name", nm), ("email", em), ("message", m2)] t2 = some (s2, r2) ∧
        r1.action = "created" ∧ r2.action = "updated" ∧
        r1.document_id = email_to_short_id em ∧
        r2.document_id = email_to_short_id em ∧
        r1.total_messages = 1 ∧ r2.total_messages = 2 ∧
        (∃ d, s2 (email_to_short_id em) = some d ∧
          d.message = some (.list [m1, m2])) ∧
        (∀ k, k ≠ email_to_short_id em → s2 k = none) := by
  refine ⟨leadItemStep_meets_spec, ?_⟩
  intro em nm m1 m2 t1 t2
  obtain ⟨s1, r1, hstep1, hid1, -, -, hact1, hfr1, d1, ms1, hd1, hdm1, htm1, -, -,
    -, -, -, -, hnone1, -⟩ :=
    leadItemStep_meets_spec emptyLeadStore
      [("name", nm), ("email", em), ("message", m1)] t1 em nm m1 rfl rfl rfl
  have hms1 : ms1 = [m1] := hnone1 rfl
  obtain ⟨s2, r2, hstep2, hid2, -, -, hact2, hfr2, d2, ms2, hd2, hdm2, htm2, -, -,
    -, -, -, -, -, hsome2⟩ :=
    leadItemStep_meets_spec s1
      [("name", nm), ("email", em), ("message", m2)] t2 em nm m2 rfl rfl rfl
  have hms2 : ms2 = [m1] ++ [m2] := by
    have := (hsome2 d1 hd1).2.1 ms1 hdm1
    rw [this, hms1]
  refine ⟨s1, r1, s2, r2, hstep1, hstep2, ?_, ?_, hid1, hid2, ?_, ?_, ?_, ?_⟩
  · rw [hact1]
    rfl
  · rw [hact2, hd1]
    rfl
  · rw [htm1, hms1]
    rfl
  · rw [htm2, hms2]
    rfl
  · refine ⟨d2, hd2, ?_⟩
    rw [hdm2, hms2]
    rfl
  · intro k hk
    rw [hfr2 k hk, hfr1 k hk]
    rfl

/-! ### C5: approval of pending merchants -/

/-- C5: for every key passed to the approve operation — a key with no pending
document yields a recorded "not found" failure and the loop continues (every
key contributes exactly one outcome); a key with a pending document and a
committing transaction ends with exactly that document in the Merchant
collection at the key and nothing in Pending, no other key touched; a key
whose transaction raises leaves both collections unchanged. -/
theorem approve_pending_merchant_moves :
    (∀ txFail st mid, st.pending mid = none →
      approveStep txFail st mid =
        (st, .inr ⟨mid, "Pending merchant with ID " ++ mid ++ " not found"⟩)) ∧
    (∀ txFail st mid d, st.pending mid = some d → txFail mid = false →
      ∃ st' ok, approveStep txFail st mid = (st', .inl ok) ∧
        st'.merchants mid = some d ∧ st'.pending mid = none ∧
        (∀ k, k ≠ mid →
          st'.merchants k = st.merchants k ∧ st'.pending k = st.pending k)) ∧
    (∀ txFail st mid d, st.pending mid = some d → txFail mid = true →
      (approveStep txFail st mid).1 = st) ∧
    (∀ txFail st mids,
      ((approveAll txFail st mids).2.1).length +
        ((approveAll txFail st mids).2.2).length = mids.length) := by
  refine ⟨?_, ?_, ?_, ?_⟩
  · intro txFail st mid h
    simp only [approveStep, h]
  · intro txFail st mid d h1 h2
    simp only [approveStep, h1, h2, Bool.false_eq_true, if_false]
    refine ⟨_, _, rfl, ?_, ?_, ?_⟩
    · exact if_pos rfl
    · exact if_pos rfl
    · intro k hk
      exact ⟨if_neg hk, if_neg hk⟩
  · intro txFail st mid d h1 h2
    simp only [approveStep, h1, h2, if_true]
  · intro txFail st mids
    induction mids generalizing st with
    | nil => rfl
    | cons mid rest ih =>
      rcases happr : approveStep txFail st mid with ⟨st', res⟩
      cases res with
      | inl ok =>
        simp only [approveAll, happr]
        have := ih st'
        simp only [List.length_cons]
        omega
      | inr f =>
        simp only [approveAll, happr]
        have := ih st'
        simp only [List.length_cons]
        omega

/-- Witness for C5: approving the key `"m1"`, pending with a sample document,
moves that document to the Merchant collection and clears Pending. -/
theorem approve_witness :
    ∃ st' ok,
      approveStep (fun _ => false)
        { pending := fun k => if k = "m1" then some sampleMerchantDoc else none
          merchants := fun _ => none } "m1" = (st', .inl ok) ∧
      st'.merchants "m1" = some sampleMerchantDoc ∧ st'.pending "m1" = none ∧
      (∀ k, k ≠ "m1" →
        st'.merchants k = (fun _ => (none : Option MerchantDoc)) k ∧
        st'.pending k =
          (fun k => if k = "m1" then some sampleMerchantDoc else none) k) :=
  approve_pending_merchant_moves.2.1 (fun _ => false) _ "m1" sampleMerchantDoc
    (by simp) rfl

/-! ### Loop and validation lemmas shared by C3, C4 and C9 -/

theorem contactLoop_length (failAt : Nat → Bool) (errMsg : Nat → String)
    (now : Nat) :
    ∀ (items : List Item) (store : ContactStore) (i0 : Nat),
      ((contactLoop failAt errMsg now store items i0).2.1).length +
        ((contactLoop failAt errMsg now store items i0).2.2).length
        = items.length := by
  intro items
  induction items with
  | nil => intro store i0; rfl
  | cons it rest ih =>
    intro store i0
    by_cases hf : failAt i0 = true
    · have := ih store (i0 + 1)
      simp only [contactLoop, hf, if_true, List.length_cons]
      omega
    · rw [Bool.not_eq_true] at hf
      rcases hstep : contactItemStep store it now with _ | ⟨store', res⟩
      · have := ih store (i0 + 1)
        simp only [contactLoop, hf, Bool.false_eq_true, if_false, hstep,
          List.length_cons]
        omega
      · have := ih store' (i0 + 1)
        simp only [contactLoop, hf, Bool.false_eq_true, if_false, hstep,
          List.length_cons]
        omega

theorem merchantLoop_length (failAt : Nat → Bool) (errMsg : Nat → String)
    (now : Nat) :
    ∀ (items : List Item) (store : MerchStore) (i0 : Nat),
      ((merchantLoop failAt errMsg now store items i0).2.1).length +
        ((merchantLoop failAt errMsg now store items i0).2.2).length
        = items.length := by
  intro items
  induction items with
  | nil => intro store i0; rfl
  | cons it rest ih =>
    intro store i0
    by_cases hf : failAt i0 = true
    · have := ih store (i0 + 1)
      simp only [merchantLoop, hf, if_true, List.length_cons]
      omega
    · rw [Bool.not_eq_true] at hf
      rcases hstep : merchantItemStep store it now with _ | ⟨store', res⟩
      · have := ih store (i0 + 1)
        simp only [merchantLoop, hf, Bool.false_eq_true, if_false, hstep,
          List.length_cons]
        omega
      · have := ih store' (i0 + 1)
        simp only [merchantLoop, hf, Bool.false_eq_true, if_false, hstep,
          List.length_cons]
        omega

theorem contactLoop_error_mem (failAt : Nat → Bool) (errMsg : Nat → String)
    (now : Nat) :
    ∀ (items : List Item) (store : ContactStore) (i0 j : Nat) (it : Item),
      items[j]? = some it → failAt (i0 + j) = true →
      (⟨i0 + j + 1, emailOrUnknown it, errMsg (i0 + j)⟩ : ContactError) ∈
        (contactLoop failAt errMsg now store items i0).2.2 := by
  intro items
  induction items with
  | nil =>
    intro store i0 j it hget
    simp at hget
  | cons it0 rest ih =>
    intro store i0 j it hget hf
    cases j with
    | zero =>
      rw [List.getElem?_cons_zero] at hget
      cases hget
      have hf0 : failAt i0 = true := by simpa using hf
      simp only [contactLoop, hf0, if_true, Nat.add_zero]
      exact List.mem_cons_self _ _
    | succ j' =>
      rw [List.getElem?_cons_succ] at hget
      have harith : i0 + (j' + 1) = i0 + 1 + j' := by omega
      rw [harith] at hf ⊢
      by_cases hf0 : failAt i0 = true
      · simp only [contactLoop, hf0, if_true]
        exact List.mem_cons_of_mem _ (ih store (i0 + 1) j' it hget hf)
      · rw [Bool.not_eq_true] at hf0
        rcases hstep : contactItemStep store it0 now with _ | ⟨store', res⟩
        · simp only [contactLoop, hf0, Bool.false_eq_true, if_false, hstep]
          exact List.mem_cons_of_mem _ (ih store (i0 + 1) j' it hget hf)
        · simp only [contactLoop, hf0, Bool.false_eq_true, if_false, hstep]
          exact ih store' (i0 + 1) j' it hget hf

theorem merchantLoop_error_mem (failAt : Nat → Bool) (errMsg : Nat → String)
    (now : Nat) :
    ∀ (items : List Item) (store : MerchStore) (i0 j : Nat) (it : Item),
      items[j]? = some it → failAt (i0 + j) = true →
      (⟨i0 + j, emailOrUnknown it, errMsg (i0 + j)⟩ : MerchantError) ∈
        (merchantLoop failAt errMsg now store items i0).2.2 := by
  intro items
  induction items with
  | nil =>
    intro store i0 j it hget
    simp at hget
  | cons it0 rest ih =>
    intro store i0 j it hget hf
    cases j with
    | zero =>
      rw [List.getElem?_cons_zero] at hget
      cases hget
      have hf0 : failAt i0 = true := by simpa using hf
      simp only [merchantLoop, hf0, if_true, Nat.add_zero]
      exact List.mem_cons_self _ _
    | succ j' =>
      rw [List.getElem?_cons_succ] at hget
      have harith : i0 + (j' + 1) = i0 + 1 + j' := by omega
      rw [harith] at hf ⊢
      by_cases hf0 : failAt i0 = true
      · simp only [merchantLoop, hf0, if_true]
        exact List.mem_cons_of_mem _ (ih store (i0 + 1) j' it hget hf)
      · rw [Bool.not_eq_true] at hf0
        rcases hstep : merchantItemStep store it0 now with _ | ⟨store', res⟩
        · simp only [merchantLoop, hf0, Bool.false_eq_true, if_false, hstep]
          exact List.mem_cons_of_mem _ (ih store (i0 + 1) j' it hget hf)
        · simp only [merchantLoop, hf0, Bool.false_eq_true, if_false, hstep]
          exact ih store' (i0 + 1) j' it hget hf

theorem validationErrors_enumFrom_length (label : String)
    (required : List String) :
    ∀ (items : List Item) (n : Nat),
      ((List.enumFrom n items).filterMap (fun p =>
        let m := missingFields required p.2
        if m.isEmpty then none
        else some (label ++ " " ++ toString (p.1 + 1) ++
          ": Missing required fields: " ++ String.intercalate ", " m))).length =
      (items.filter fun it => !(missingFields required it).isEmpty).length := by
  intro items
  induction items with
  | nil => intro n; rfl
  | cons it rest ih =>
    intro n
    by_cases hm : (missingFields required it).isEmpty
    · have hm' : missingFields required it = [] := by
        simpa [List.isEmpty_iff] using hm
      simp only [List.enumFrom, List.filterMap_cons, List.filter_cons]
      simp [hm']
      simpa using ih (n + 1)
    · have hm' : ¬ missingFields required it = [] := by
        simpa [List.isEmpty_iff] using hm
      simp only [List.enumFrom, List.filterMap_cons, List.filter_cons]
      simp [hm']
      simpa using ih (n + 1)

theorem validationErrors_length (label : String) (required : List String)
    (items : List Item) :
    (validationErrors label required items).length =
      (items.filter fun it => !(missingFields required it).isEmpty).length := by
  have := validationErrors_enumFrom_length label required items 0
  simpa [validationErrors, List.enum] using this

theorem validationErrors_enumFrom_mem (label : String) (required : List String) :
    ∀ (items : List Item) (n j : Nat) (it : Item),
      items[j]? = some it → missingFields required it ≠ [] →
      (label ++ " " ++ toString (n + j + 1) ++ ": Missing required fields: " ++
        String.intercalate ", " (missingFields required it)) ∈
      (List.enumFrom n items).filterMap (fun p =>
        let m := missingFields required p.2
        if m.isEmpty then none
        else some (label ++ " " ++ toString (p.1 + 1) ++
          ": Missing required fields: " ++ String.intercalate ", " m)) := by
  intro items
  induction items with
  | nil =>
    intro n j it hget
    simp at hget
  | cons it0 rest ih =>
    intro n j it hget hmiss
    cases j with
    | zero =>
      rw [List.getElem?_cons_zero] at hget
      cases hget
      have hm : (missingFields required it0).isEmpty = false := by
        cases hmv : missingFields required it0 with
        | nil => exact absurd hmv hmiss
        | cons a t => rfl
      simp only [List.enumFrom, List.filterMap_cons, hm, Bool.false_eq_true,
        if_false, Nat.add_zero]
      exact List.mem_cons_self _ _
    | succ j' =>
      rw [List.getElem?_cons_succ] at hget
      have harith : n + (j' + 1) = n + 1 + j' := by omega
      rw [harith]
      by_cases hm : (missingFields required it0).isEmpty
      · simp only [List.enumFrom, List.filterMap_cons, hm, if_true]
        exact ih (n + 1) j' it hget hmiss
      · rw [Bool.not_eq_true] at hm
        simp only [List.enumFrom, List.filterMap_cons, hm, Bool.false_eq_true,
          if_false]
        exact List.mem_cons_of_mem _ (ih (n + 1) j' it hget hmiss)

theorem validationErrors_mem (label : String) (required : List String)
    (items : List Item) (j : Nat) (it : Item) (hget : items[j]? = some it)
    (hmiss : missingFields required it ≠ []) :
    (label ++ " " ++ toString (j + 1) ++ ": Missing required fields: " ++
      String.intercalate ", " (missingFields required it)) ∈
      validationErrors label required items := by
  have := validationErrors_enumFrom_mem label required items 0 j it hget hmiss
  simpa [validationErrors, List.enum] using this

/-! ### C3: all-or-nothing pre-validation -/

/-- Counterexample to C3 as stated: a merchant batch whose only item lacks
`address`, `description` and `industry` is rejected before any write, but
merchant.store_merchant answers 207 (the validation envelope's
`success = false` maps to Multi-Status), not 400. -/
theorem merchant_validation_status_counterexample :
    (storeMerchantPipeline (fun _ => false) (fun _ => "") emptyMerchStore 0
        [[("name", strToNats "Alice"), ("email", strToNats "m@x.com")]]).1 =
      HTTP_MULTI_STATUS ∧
    HTTP_MULTI_STATUS ≠ HTTP_BAD_REQUEST := by
  refine ⟨by decide, by decide⟩

/-- C3 as amended: a store batch with an item missing a required field
(absent or falsy) is rejected before any write — the store is returned
unchanged and the response carries one 1-indexed error string per failing
item listing all of that item's missing fields (the last two conjuncts:
exactly one string per failing item, and the string of each failing item is
present) — with status 400 for the contact handler but 207 for the merchant
handlers, whose validation failure is folded into the `success = false`
envelope. -/
theorem batch_validation_all_or_nothing :
    (∀ failAt errMsg store now (items : List Item) (j : Nat) it, items[j]? = some it →
      missingFields contactRequiredFields it ≠ [] →
      storeContactPipeline failAt errMsg store now items =
        (.validationFailed HTTP_BAD_REQUEST
          (validationErrors "Contact" contactRequiredFields items), store)) ∧
    (∀ failAt errMsg store now (items : List Item) (j : Nat) it, items[j]? = some it →
      missingFields merchantRequiredFields it ≠ [] →
      ∃ resp, storeMerchantPipeline failAt errMsg store now items =
          (HTTP_MULTI_STATUS, resp, store) ∧
        resp.success = false ∧ resp.stored_successfully = 0 ∧
        resp.stored_merchants = [] ∧
        resp.errors = some
          ((validationErrors "Merchant" merchantRequiredFields items).enum.map
            fun p => ⟨p.1 + 1, [], p.2⟩)) ∧
    (∀ label required (items : List Item),
      (validationErrors label required items).length =
        (items.filter fun it => !(missingFields required it).isEmpty).length) ∧
    (∀ label required (items : List Item) (j : Nat) it, items[j]? = some it →
      missingFields required it ≠ [] →
      (label ++ " " ++ toString (j + 1) ++ ": Missing required fields: " ++
        String.intercalate ", " (missingFields required it)) ∈
        validationErrors label required items) := by
  refine ⟨?_, ?_, validationErrors_length, validationErrors_mem⟩
  · intro failAt errMsg store now items j it hget hmiss
    have hne : validationErrors "Contact" contactRequiredFields items ≠ [] :=
      List.ne_nil_of_mem (validationErrors_mem _ _ items j it hget hmiss)
    have hie : (validationErrors "Contact" contactRequiredFields items).isEmpty
        = false := by
      cases hve : validationErrors "Contact" contactRequiredFields items with
      | nil => exact absurd hve hne
      | cons a t => rfl
    simp only [storeContactPipeline, hie, Bool.false_eq_true, if_false]
  · intro failAt errMsg store now items j it hget hmiss
    have hne : validationErrors "Merchant" merchantRequiredFields items ≠ [] :=
      List.ne_nil_of_mem (validationErrors_mem _ _ items j it hget hmiss)
    have hie : (validationErrors "Merchant" merchantRequiredFields items).isEmpty
        = false := by
      cases hve : validationErrors "Merchant" merchantRequiredFields items with
      | nil => exact absurd hve hne
      | cons a t => rfl
    refine ⟨{ success := false
              total_merchants := items.length
              stored_successfully := 0
              stored_merchants := []
              message := "Validation failed for " ++
                toString (validationErrors "Merchant" merchantRequiredFields
                  items).length ++ " merchant(s)"
              errors := some ((validationErrors "Merchant" merchantRequiredFields
                items).enum.map fun p => ⟨p.1 + 1, [], p.2⟩) },
      ?_, rfl, rfl, rfl, rfl⟩
    simp only [storeMerchantPipeline, process_merchants_for_storage, hie,
      Bool.false_eq_true, if_false]

/-! ### C4: per-item failure isolation -/

/-- Counterexample to C4 as stated: an exception on the first merchant of a
batch (1-indexed position 1) is recorded with `merchant_index = 0` — the
0-based loop index, not the 1-indexed position. -/
theorem merchant_error_index_counterexample :
    (process_merchants_for_storage (fun _ => true) (fun _ => "boom")
        emptyMerchStore 0
        [[("name", strToNats "Alice"), ("email", strToNats "m@x.com"),
          ("address", strToNats "1 Way"), ("description", strToNats "d"),
          ("industry", strToNats "food")]]).1.errors =
      some [⟨0, strToNats "m@x.com", "boom"⟩] ∧
    (0 : Nat) ≠ 0 + 1 := by
  refine ⟨by decide, by decide⟩

/-- C4 as amended: an exception while processing item `j` (0-based) adds one
error entry carrying the item's `contact.get('email', 'unknown')` value and
the exception text, with the 1-indexed position `j + 1` for the contact
handler but the 0-based index `j` for the merchant store; all other items are
still processed (successes and errors partition the batch), and the aggregate
answers 207 whenever successes and errors are mixed. -/
theorem per_item_failure_isolated :
    (∀ failAt errMsg now (store : ContactStore) (items : List Item) j it,
      items[j]? = some it → failAt j = true →
      (⟨j + 1, emailOrUnknown it, errMsg j⟩ : ContactError) ∈
        (contactLoop failAt errMsg now store items 0).2.2) ∧
    (∀ failAt errMsg now (store : MerchStore) (items : List Item) j it,
      items[j]? = some it → failAt j = true →
      (⟨j, emailOrUnknown it, errMsg j⟩ : MerchantError) ∈
        (merchantLoop failAt errMsg now store items 0).2.2) ∧
    (∀ failAt errMsg now (store : ContactStore) (items : List Item),
      ((contactLoop failAt errMsg now store items 0).2.1).length +
        ((contactLoop failAt errMsg now store items 0).2.2).length
        = items.length) ∧
    (∀ failAt errMsg now (store : MerchStore) (items : List Item),
      ((merchantLoop failAt errMsg now store items 0).2.1).length +
        ((merchantLoop failAt errMsg now store items 0).2.2).length
        = items.length) ∧
    (∀ failAt errMsg (store : ContactStore) now (items : List Item),
      validationErrors "Contact" contactRequiredFields items = [] →
      (contactLoop failAt errMsg now store items 0).2.1 ≠ [] →
      (contactLoop failAt errMsg now store items 0).2.2 ≠ [] →
      (storeContactPipeline failAt errMsg store now items).1.status
        = HTTP_MULTI_STATUS) ∧
    (∀ failAt errMsg (store : MerchStore) now (items : List Item),
      validationErrors "Merchant" merchantRequiredFields items = [] →
      (merchantLoop failAt errMsg now store items 0).2.1 ≠ [] →
      (merchantLoop failAt errMsg now store items 0).2.2 ≠ [] →
      (storeMerchantPipeline failAt errMsg store now items).1
        = HTTP_MULTI_STATUS) := by
  refine ⟨?_, ?_, ?_, ?_, ?_, ?_⟩
  · intro failAt errMsg now store items j it hget hf
    have := contactLoop_error_mem failAt errMsg now items store 0 j it hget
      (by simpa using hf)
    simpa using this
  · intro failAt errMsg now store items j it hget hf
    have := merchantLoop_error_mem failAt errMsg now items store 0 j it hget
      (by simpa using hf)
    simpa using this
  · intro failAt errMsg now store items
    exact contactLoop_length failAt errMsg now items store 0
  · intro failAt errMsg now store items
    exact merchantLoop_length failAt errMsg now items store 0
  · intro failAt errMsg store now items hval hoks herrs
    have hie : (validationErrors "Contact" contactRequiredFields items).isEmpty
        = true := by rw [hval]; rfl
    have heie : ((contactLoop failAt errMsg now store items 0).2.2).isEmpty
        = false := by
      cases hc : (contactLoop failAt errMsg now store items 0).2.2 with
      | nil => exact absurd hc herrs
      | cons a t => rfl
    simp only [storeContactPipeline, hie, if_true, StoreOutcome.status, heie,
      Bool.false_eq_true, if_false]
  · intro failAt errMsg store now items hval hoks herrs
    have hie : (validationErrors "Merchant" merchantRequiredFields items).isEmpty
        = true := by rw [hval]; rfl
    have heie : ((merchantLoop failAt errMsg now store items 0).2.2).isEmpty
        = false := by
      cases hc : (merchantLoop failAt errMsg now store items 0).2.2 with
      | nil => exact absurd hc herrs
      | cons a t => rfl
    simp only [storeMerchantPipeline, process_merchants_for_storage, hie,
      if_true, heie, Bool.false_eq_true, if_false]

/-! ### C9: successes and errors partition a validated batch -/

/-- C9: once a batch passes pre-validation, every item lands in exactly one
of the success and error lists: `stored_successfully` plus the number of
error entries equals the batch size, and the `success` flag is true exactly
when the error list is absent. -/
theorem batch_partition_invariant :
    (∀ failAt errMsg (store : ContactStore) now (items : List Item),
      validationErrors "Contact" contactRequiredFields items = [] →
      ∃ status resp store',
        storeContactPipeline failAt errMsg store now items =
          (.processed status resp, store') ∧
        resp.total_contacts = items.length ∧
        resp.stored_successfully + ((resp.errors.getD []).length) = items.length ∧
        (resp.success = true ↔ resp.errors = none)) ∧
    (∀ failAt errMsg (store : MerchStore) now (items : List Item),
      validationErrors "Merchant" merchantRequiredFields items = [] →
      ∃ resp store',
        process_merchants_for_storage failAt errMsg store now items =
          (resp, store') ∧
        resp.total_merchants = items.length ∧
        resp.stored_successfully + ((resp.errors.getD []).length) = items.length ∧
        (resp.success = true ↔ resp.errors = none)) := by
  constructor
  · intro failAt errMsg store now items hval
    have hie : (validationErrors "Contact" contactRequiredFields items).isEmpty
        = true := by rw [hval]; rfl
    have hlen := contactLoop_length failAt errMsg now items store 0
    simp only [storeContactPipeline, hie, if_true]
    refine ⟨_, _, _, rfl, rfl, ?_, ?_⟩
    · cases hc : (contactLoop failAt errMsg now store items 0).2.2 with
      | nil =>
        simp only [aggregateContacts, hc, List.isEmpty_nil, if_true,
          Option.getD_none, List.length_nil]
        rw [hc] at hlen
        simpa using hlen
      | cons a t =>
        simp only [aggregateContacts, hc, List.isEmpty_cons,
          Bool.false_eq_true, if_false, Option.getD_some]
        rw [hc] at hlen
        simpa using hlen
    · cases hc : (contactLoop failAt errMsg now store items 0).2.2 with
      | nil => simp [aggregateContacts, hc]
      | cons a t => simp [aggregateContacts, hc]
  · intro failAt errMsg store now items hval
    have hie : (validationErrors "Merchant" merchantRequiredFields items).isEmpty
        = true := by rw [hval]; rfl
    have hlen := merchantLoop_length failAt errMsg now items store 0
    simp only [process_merchants_for_storage, hie, if_true]
    refine ⟨_, _, rfl, rfl, ?_, ?_⟩
    · cases hc : (merchantLoop failAt errMsg now store items 0).2.2 with
      | nil =>
        simp only [hc, List.isEmpty_nil, if_true, Option.getD_none,
          List.length_nil]
        rw [hc] at hlen
        simpa using hlen
      | cons a t =>
        simp only [hc, List.isEmpty_cons, Bool.false_eq_true, if_false,
          Option.getD_some]
        rw [hc] at hlen
        simpa using hlen
    · cases hc : (merchantLoop failAt errMsg now store items 0).2.2 with
      | nil => simp [hc]
      | cons a t => simp [hc]

end Guava
